import Mathlib

/-!
Verification of the OPIC learning application's persistence layer and
generation pipeline.

The Lean definitions below are a shallow embedding of the Python sources:

* `src/Models/database.py`   — `DatabaseManager` (topic progress, question
  cache, settings); SQLite tables are modelled as association lists keyed
  exactly as the tables' UNIQUE constraints dictate, wall-clock time is an
  explicit `Nat` parameter (seconds), and each public method becomes a pure
  function from the old store to the new store and the method's return value.
* `src/Models/opic_structure.py` — `OpicStructure` (level catalog, level
  order lookups).
* `src/services/ai_service.py`   — `AIService` (request validation, prompt
  construction, response parsing/validation).  The single HTTP transport call
  is modelled by passing the transport's outcome as an explicit argument.

Python's `json` standard library (used by `get_setting`/`set_setting` and the
response parser) is modelled by an executable JSON value type with a
recursive-descent parser (`jsonLoads`) and serializer (`jsonDumps`) following
the JSON grammar that `json.loads`/`json.dumps` implement (non-integer
numerals, which Python decodes to floats, are out of scope and rejected).
-/

namespace OpicApp

/-! ## Topic progress (src/Models/database.py, `topic_progress` table) -/

/-- One row of the `topic_progress` table.  The derived floating-point
`accuracy` field that `get_topic_progress` adds to its result dict is display
data computed from `correct_answers`/`total_questions` and is not part of the
stored row; it is omitted from the model (floating point).  `last_attempt`
is `CURRENT_TIMESTAMP` at the moment of the write, modelled as `Option Nat`. -/
structure TopicProgressRow where
  best_score : Int
  attempts : Int
  total_questions : Int
  correct_answers : Int
  last_attempt : Option Nat
  is_completed : Bool
deriving Repr, DecidableEq

/-- The `topic_progress` table: rows keyed by the UNIQUE `(level, topic)`. -/
abbrev TopicDB := List ((String × String) × TopicProgressRow)

/-- Zero-valued defaults returned by `get_topic_progress` when no row
exists for the key (src/Models/database.py lines 238-246). -/
def defaultTopicProgress : TopicProgressRow :=
  { best_score := 0
    attempts := 0
    total_questions := 0
    correct_answers := 0
    last_attempt := none
    is_completed := false }

/-- `DatabaseManager.get_topic_progress` (src/Models/database.py 217-246):
SELECT by `(level, topic)`, returning zero defaults when absent. -/
def getTopicProgress (db : TopicDB) (level topic : String) : TopicProgressRow :=
  match db.lookup (level, topic) with
  | some row => row
  | none => defaultTopicProgress

/-- `INSERT OR REPLACE` keyed on the UNIQUE `(level, topic)`: the fresh row
replaces any existing row for the key. -/
def upsertTopic (db : TopicDB) (key : String × String) (row : TopicProgressRow) : TopicDB :=
  (key, row) :: db.filter (fun p => !(p.1 == key))

/-- `DatabaseManager.update_topic_progress` (src/Models/database.py 248-272):
read the current row (or defaults), take the running maximum of best scores,
add one attempt, accumulate question/correct counts, recompute the completion
flag against the fixed threshold 80, and upsert. -/
def updateTopicProgress (db : TopicDB) (level topic : String)
    (score total_questions correct_answers : Int) (now : Nat) : TopicDB :=
  let current := getTopicProgress db level topic
  let new_best_score := max current.best_score score
  let new_attempts := current.attempts + 1
  let new_total_questions := current.total_questions + total_questions
  let new_correct_answers := current.correct_answers + correct_answers
  let is_completed : Bool := decide (new_best_score ≥ 80)
  upsertTopic db (level, topic)
    { best_score := new_best_score
      attempts := new_attempts
      total_questions := new_total_questions
      correct_answers := new_correct_answers
      last_attempt := some now
      is_completed := is_completed }

/-! ## Level order (src/Models/opic_structure.py, `LEVEL_ORDER`) -/

/-- `OpicStructure.LEVEL_ORDER` (src/Models/opic_structure.py line 398). -/
def LEVEL_ORDER : List String := ["IM1", "IM2", "IM3", "IH", "AL", "AM", "AH"]

/-- Python `list.index`: index of the first occurrence, or `none` where the
Python method raises `ValueError` (which the callers catch). -/
def listIndex (target : String) : List String → Option Nat
  | [] => none
  | x :: rest => if x == target then some 0 else (listIndex target rest).map (· + 1)

/-- `OpicStructure.get_next_level` (src/Models/opic_structure.py 422-431):
the successor in `LEVEL_ORDER`, or `None` at the last level or when the code
is not in the order (the `ValueError` from `index` is swallowed). -/
def getNextLevel (current_level : String) : Option String :=
  match listIndex current_level LEVEL_ORDER with
  | some i => if i < LEVEL_ORDER.length - 1 then LEVEL_ORDER[i + 1]? else none
  | none => none

/-- `OpicStructure.get_previous_level` (src/Models/opic_structure.py 433-442). -/
def getPreviousLevel (current_level : String) : Option String :=
  match listIndex current_level LEVEL_ORDER with
  | some i => if i > 0 then LEVEL_ORDER[i - 1]? else none
  | none => none

/-! ## JSON values (model of Python's `json` standard library) -/

/-- A decoded JSON value as `json.loads` produces it (`dict`s keep their
fields in textual order here; `pyDictGet` below reproduces the
last-occurrence-wins semantics of building a Python `dict`). -/
inductive JValue where
  | jnull
  | jbool (b : Bool)
  | jnum (n : Int)
  | jstr (s : String)
  | jarr (elems : List JValue)
  | jobj (fields : List (String × JValue))
deriving Repr, Inhabited

mutual

/-- Structural equality of JSON values (Python `==` restricted to decoded
JSON data of matching shapes; cross-type comparisons are `False`). -/
def beqJValue : JValue → JValue → Bool
  | .jnull, .jnull => true
  | .jbool a, .jbool b => a == b
  | .jnum a, .jnum b => a == b
  | .jstr a, .jstr b => a == b
  | .jarr xs, .jarr ys => beqJList xs ys
  | .jobj fs, .jobj gs => beqJFields fs gs
  | _, _ => false

def beqJList : List JValue → List JValue → Bool
  | [], [] => true
  | x :: xs, y :: ys => beqJValue x y && beqJList xs ys
  | _, _ => false

def beqJFields : List (String × JValue) → List (String × JValue) → Bool
  | [], [] => true
  | (k, v) :: fs, (k2, v2) :: gs => k == k2 && beqJValue v v2 && beqJFields fs gs
  | _, _ => false

end

instance : BEq JValue := ⟨beqJValue⟩

/-- JSON insignificant whitespace. -/
def isJsonWs (c : Char) : Bool :=
  c = ' ' || c = '\t' || c = '\n' || c = '\r'

/-- Drop leading JSON whitespace. -/
def skipJsonWs : List Char → List Char
  | [] => []
  | c :: rest => if isJsonWs c then skipJsonWs rest else c :: rest

/-- Value of one hexadecimal digit. -/
def hexDigitVal (c : Char) : Option Nat :=
  if '0' ≤ c ∧ c ≤ '9' then some (c.toNat - '0'.toNat)
  else if 'a' ≤ c ∧ c ≤ 'f' then some (c.toNat - 'a'.toNat + 10)
  else if 'A' ≤ c ∧ c ≤ 'F' then some (c.toNat - 'A'.toNat + 10)
  else none

/-- Parse the body of a JSON string after the opening quote, returning the
decoded characters and the input remaining after the closing quote. -/
def parseStringBody : List Char → Option (List Char × List Char)
  | [] => none
  | '"' :: rest => some ([], rest)
  | '\\' :: 'u' :: h1 :: h2 :: h3 :: h4 :: rest =>
    match hexDigitVal h1, hexDigitVal h2, hexDigitVal h3, hexDigitVal h4 with
    | some d1, some d2, some d3, some d4 =>
      match parseStringBody rest with
      | some (s, r) => some (Char.ofNat (((d1 * 16 + d2) * 16 + d3) * 16 + d4) :: s, r)
      | none => none
    | _, _, _, _ => none
  | '\\' :: e :: rest =>
    match (match e with
           | '"' => some '"'
           | '\\' => some '\\'
           | '/' => some '/'
           | 'n' => some '\n'
           | 't' => some '\t'
           | 'r' => some '\r'
           | 'b' => some (Char.ofNat 8)
           | 'f' => some (Char.ofNat 12)
           | _ => none) with
    | some c =>
      match parseStringBody rest with
      | some (s, r) => some (c :: s, r)
      | none => none
    | none => none
  | ['\\'] => none
  | c :: rest =>
    match parseStringBody rest with
    | some (s, r) => some (c :: s, r)
    | none => none

/-- Digits of a decimal literal. -/
def takeDigits (l : List Char) : List Char × List Char :=
  (l.takeWhile Char.isDigit, l.dropWhile Char.isDigit)

/-- Numeric value of a digit string. -/
def digitsToNat (ds : List Char) : Nat :=
  ds.foldl (fun acc c => acc * 10 + (c.toNat - '0'.toNat)) 0

/-- Parse a JSON integer literal (grammar `-?(0|[1-9][0-9]*)`).  A fractional
part or exponent would decode to a Python float, which is out of the model's
scope, so such numerals are rejected here; no claim involves them. -/
def parseNumber (l : List Char) : Option (JValue × List Char) :=
  let (neg, l1) := match l with
    | '-' :: rest => (true, rest)
    | _ => (false, l)
  let (ds, rest) := takeDigits l1
  match ds with
  | [] => none
  | d :: ds2 =>
    if d = '0' ∧ ds2 ≠ [] then none
    else match rest with
      | '.' :: _ => none
      | 'e' :: _ => none
      | 'E' :: _ => none
      | _ => some (.jnum (if neg then -(Int.ofNat (digitsToNat ds)) else Int.ofNat (digitsToNat ds)), rest)

mutual

/-- Recursive-descent JSON value parser; the fuel bounds nesting depth and
`jsonLoads` supplies more fuel than any input can nest. -/
def parseJValue : Nat → List Char → Option (JValue × List Char)
  | 0, _ => none
  | fuel + 1, input =>
    match skipJsonWs input with
    | 't' :: 'r' :: 'u' :: 'e' :: rest => some (.jbool true, rest)
    | 'f' :: 'a' :: 'l' :: 's' :: 'e' :: rest => some (.jbool false, rest)
    | 'n' :: 'u' :: 'l' :: 'l' :: rest => some (.jnull, rest)
    | '"' :: rest =>
      match parseStringBody rest with
      | some (s, r) => some (.jstr (String.mk s), r)
      | none => none
    | '[' :: rest =>
      match skipJsonWs rest with
      | ']' :: r => some (.jarr [], r)
      | other =>
        match parseJElems fuel other with
        | some (xs, r) => some (.jarr xs, r)
        | none => none
    | '\x7b' :: rest =>
      match skipJsonWs rest with
      | '\x7d' :: r => some (.jobj [], r)
      | other =>
        match parseJFields fuel other with
        | some (fs, r) => some (.jobj fs, r)
        | none => none
    | other => parseNumber other

/-- Comma-separated JSON array elements up to the closing bracket. -/
def parseJElems : Nat → List Char → Option (List JValue × List Char)
  | 0, _ => none
  | fuel + 1, input =>
    match parseJValue fuel input with
    | none => none
    | some (v, rest) =>
      match skipJsonWs rest with
      | ',' :: r2 =>
        match parseJElems fuel r2 with
        | some (xs, r3) => some (v :: xs, r3)
        | none => none
      | ']' :: r2 => some ([v], r2)
      | _ => none

/-- Comma-separated JSON object members up to the closing brace. -/
def parseJFields : Nat → List Char → Option (List (String × JValue) × List Char)
  | 0, _ => none
  | fuel + 1, input =>
    match skipJsonWs input with
    | '"' :: rest =>
      match parseStringBody rest with
      | none => none
      | some (ks, r1) =>
        match skipJsonWs r1 with
        | ':' :: r2 =>
          match parseJValue fuel r2 with
          | none => none
          | some (v, r3) =>
            match skipJsonWs r3 with
            | ',' :: r4 =>
              match parseJFields fuel r4 with
              | some (fs, r5) => some ((String.mk ks, v) :: fs, r5)
              | none => none
            | '\x7d' :: r4 => some ([(String.mk ks, v)], r4)
            | _ => none
        | _ => none
    | _ => none

end

/-- `json.loads`: decode a complete JSON document; trailing whitespace is
allowed, anything else after the value is an error (`none` models the raised
`json.JSONDecodeError`). -/
def jsonLoads (s : String) : Option JValue :=
  match parseJValue (s.length + 1) s.data with
  | some (v, rest) => if skipJsonWs rest = [] then some v else none
  | none => none

/-- `json.dumps` escaping for one character (the common control characters;
Python escapes further control characters as `\uXXXX`, which no claim uses). -/
def escapeJsonChar (c : Char) : List Char :=
  if c = '"' then ['\\', '"']
  else if c = '\\' then ['\\', '\\']
  else if c = '\n' then ['\\', 'n']
  else if c = '\t' then ['\\', 't']
  else if c = '\r' then ['\\', 'r']
  else [c]

/-- Serialize a string with `json.dumps` quoting. -/
def dumpJString (s : String) : String :=
  String.mk ('"' :: (s.data.flatMap escapeJsonChar) ++ ['"'])

mutual

/-- `json.dumps` with its default separators `", "` and `": "`. -/
def jsonDumps : JValue → String
  | .jnull => "null"
  | .jbool true => "true"
  | .jbool false => "false"
  | .jnum n => toString n
  | .jstr s => dumpJString s
  | .jarr xs => "[" ++ jsonDumpsList xs ++ "]"
  | .jobj fs => "\x7b" ++ jsonDumpsFields fs ++ "\x7d"

def jsonDumpsList : List JValue → String
  | [] => ""
  | [x] => jsonDumps x
  | x :: y :: rest => jsonDumps x ++ ", " ++ jsonDumpsList (y :: rest)

def jsonDumpsFields : List (String × JValue) → String
  | [] => ""
  | [(k, v)] => dumpJString k ++ ": " ++ jsonDumps v
  | (k, v) :: g :: rest => dumpJString k ++ ": " ++ jsonDumps v ++ ", " ++ jsonDumpsFields (g :: rest)

end

/-! ## Python values stored in settings -/

/-- A Python value of the kinds that flow through `get_setting`/`set_setting`:
`None`, booleans, integers, strings, lists and dicts. -/
inductive PyVal where
  | vnone
  | vbool (b : Bool)
  | vint (n : Int)
  | vstr (s : String)
  | vlist (xs : List PyVal)
  | vdict (fields : List (String × PyVal))
deriving Repr, Inhabited

mutual

/-- The JSON document `json.dumps` sees for a Python value. -/
def pyToJson : PyVal → JValue
  | .vnone => .jnull
  | .vbool b => .jbool b
  | .vint n => .jnum n
  | .vstr s => .jstr s
  | .vlist xs => .jarr (pyToJsonList xs)
  | .vdict fs => .jobj (pyToJsonFields fs)

def pyToJsonList : List PyVal → List JValue
  | [] => []
  | x :: rest => pyToJson x :: pyToJsonList rest

def pyToJsonFields : List (String × PyVal) → List (String × JValue)
  | [] => []
  | (k, v) :: rest => (k, pyToJson v) :: pyToJsonFields rest

end

mutual

/-- The Python value `json.loads` hands back for a decoded JSON document. -/
def jsonToPy : JValue → PyVal
  | .jnull => .vnone
  | .jbool b => .vbool b
  | .jnum n => .vint n
  | .jstr s => .vstr s
  | .jarr xs => .vlist (jsonToPyList xs)
  | .jobj fs => .vdict (jsonToPyFields fs)

def jsonToPyList : List JValue → List PyVal
  | [] => []
  | x :: rest => jsonToPy x :: jsonToPyList rest

def jsonToPyFields : List (String × JValue) → List (String × PyVal)
  | [] => []
  | (k, v) :: rest => (k, jsonToPy v) :: jsonToPyFields rest

end

/-- Python `str()` on the scalar values `set_setting` stringifies.  In
particular `str(True) = "True"` and `str(False) = "False"` with capital
initials, and `str(None) = "None"`. -/
def pyStr : PyVal → String
  | .vnone => "None"
  | .vbool true => "True"
  | .vbool false => "False"
  | .vint n => toString n
  | .vstr s => s
  | .vlist xs => jsonDumps (.jarr (pyToJsonList xs))
  | .vdict fs => jsonDumps (.jobj (pyToJsonFields fs))

/-! ## Settings (src/Models/database.py, `app_settings` table) -/

/-- The `app_settings` table: `setting_key ↦ setting_value`, both TEXT.  The
`updated_at` timestamp column is bookkeeping no claim reads and is omitted. -/
abbrev SettingsDB := List (String × String)

/-- `DatabaseManager.set_setting` (src/Models/database.py 446-463): dicts and
lists are JSON-encoded, every other value is stringified with `str`, and the
row is upserted (`INSERT OR REPLACE` on the UNIQUE `setting_key`). -/
def setSetting (db : SettingsDB) (key : String) (value : PyVal) : SettingsDB :=
  let value_str := match value with
    | .vdict fs => jsonDumps (pyToJson (.vdict fs))
    | .vlist xs => jsonDumps (pyToJson (.vlist xs))
    | v => pyStr v
  (key, value_str) :: db.filter (fun p => !(p.1 == key))

/-- `DatabaseManager.get_setting` (src/Models/database.py 426-444): look the
key up; on a hit try `json.loads` on the stored string and fall back to the
raw string when decoding fails; on a miss return the supplied default. -/
def getSetting (db : SettingsDB) (key : String) (default : PyVal) : PyVal :=
  match db.lookup key with
  | some value =>
    match jsonLoads value with
    | some j => jsonToPy j
    | none => .vstr value
  | none => default

/-! ## Question cache (src/Models/database.py, `questions_cache` table) -/

/-- One cached question record.  The records are stored serialized with
`json.dumps` and read back with `json.loads`; that external round-trip is the
identity on JSON-representable records, so the model stores the decoded value
directly. -/
abbrev QuestionData := List JValue

/-- One row of the `questions_cache` table as `cache_questions` and
`get_cached_questions` see it: the `expires_at` column physically holds the
TEXT `datetime.isoformat()` rendering, but those two operations write it
from a Python datetime and decode it back with `fromisoformat` — an exact
round-trip — and compare instants on the Python side, so for them the
decoded instant (`Nat` clock units) is a faithful model.  The SQL sweep
`clear_expired_cache` compares the raw TEXT instead; see `CacheRowText`. -/
structure CacheRow where
  question_data : QuestionData
  created_at : Nat
  expires_at : Nat
deriving Inhabited

/-- The `questions_cache` table: rows keyed by the UNIQUE `(level, topic)`. -/
abbrev CacheDB := List ((String × String) × CacheRow)

/-- `DatabaseManager.cache_questions` (src/Models/database.py 299-313):
upsert the single row for the key with absolute expiry `now + hours`
(`timedelta(hours=expires_hours)`, i.e. `3600` seconds per hour). -/
def cacheQuestions (db : CacheDB) (level topic : String) (questions : QuestionData)
    (expires_hours : Nat) (now : Nat) : CacheDB :=
  let expires_at := now + expires_hours * 3600
  ((level, topic), { question_data := questions, created_at := now, expires_at := expires_at })
    :: db.filter (fun p => !(p.1 == (level, topic)))

/-- `DatabaseManager.get_cached_questions` (src/Models/database.py 315-337):
on a hit return the records while `now < expires_at`; past expiry delete the
row and return `None`; on a miss return `None`.  The result pairs the updated
table with the Python return value. -/
def getCachedQuestions (db : CacheDB) (level topic : String) (now : Nat) :
    CacheDB × Option QuestionData :=
  match db.lookup (level, topic) with
  | some row =>
    if now < row.expires_at then (db, some row.question_data)
    else (db.filter (fun p => !(p.1 == (level, topic))), none)
  | none => (db, none)

/-- SQLite's default BINARY collation comparison on TEXT values: byte-wise
`memcmp`, with a proper prefix sorting first.  On the pure-ASCII timestamp
strings involved this is exactly code-point lexicographic order. -/
def sqliteTextLt : List Char → List Char → Bool
  | [], [] => false
  | [], _ :: _ => true
  | _ :: _, [] => false
  | a :: as, b :: bs =>
    if a.toNat < b.toNat then true
    else if b.toNat < a.toNat then false
    else sqliteTextLt as bs

/-- One row of `questions_cache` as physically stored, for the SQL sweep:
`cache_questions` writes the `expires_at` (and `created_at`) columns as the
TEXT that Python `datetime.isoformat()` renders — local time with a `'T'`
date/time separator, e.g. `"2026-10-12T05:00:00.123456"`.
`get_cached_questions` decodes that TEXT back with `fromisoformat` (an exact
round-trip) and compares instants on the Python side, which is why `CacheRow`
above can model the column by its decoded instant; `clear_expired_cache`
instead compares the raw TEXT inside SQL, which this physical view models. -/
structure CacheRowText where
  question_data : QuestionData
  created_at : String
  expires_at : String
deriving Inhabited

/-- The `questions_cache` table in its physical TEXT form. -/
abbrev CacheTextDB := List ((String × String) × CacheRowText)

/-- `DatabaseManager.clear_expired_cache` (src/Models/database.py 339-349):
`DELETE FROM questions_cache WHERE expires_at < CURRENT_TIMESTAMP` compares
the stored isoformat TEXT against SQLite's `CURRENT_TIMESTAMP` rendering —
`"YYYY-MM-DD HH:MM:SS"`, UTC, with a space separator — under BINARY
collation, so a row is deleted exactly when its stored text sorts below the
`CURRENT_TIMESTAMP` text.  The statement's rowcount is logged but the Python
method has no `return` statement, so its return value is `None` — modelled
by the `Option Nat` component being `none`. -/
def clearExpiredCache (db : CacheTextDB) (current_timestamp : String) :
    CacheTextDB × Option Nat :=
  let remaining := db.filter (fun p => !(sqliteTextLt p.2.expires_at.data current_timestamp.data))
  (remaining, none)


/-! ## Level catalog (src/Models/opic_structure.py, `LEVELS`) -/

/-- The `OpicLevel` dataclass (src/Models/opic_structure.py 9-22). -/
structure OpicLevel where
  code : String
  name : String
  description : String
  passing_score : Int
  color : String
  topics : List String
  grammar_focus : List String
  vocabulary_themes : List String
  cultural_contexts : List String
  speaking_tasks : List String
  difficulty_indicators : List String
deriving Repr, Inhabited

/-- `OpicStructure.LEVELS` (src/Models/opic_structure.py 28-395), in the
source dict's insertion order. -/
def LEVELS : List (String × OpicLevel) := [
  ("IM1",
  {
    code := "IM1"
    name := "Intermediate Mid 1"
    description := "Basic daily conversations and routine situations"
    passing_score := 80
    color := "#4CAF50"
    topics := ["Daily Routines",
      "Family & Friends",
      "Food & Dining",
      "Shopping",
      "Transportation",
      "Weather",
      "Hobbies",
      "Work/School Basic",
      "Health & Body",
      "Home & Living",
      "Past Events",
      "Future Plans"]
    grammar_focus := ["Present Simple vs Present Continuous",
      "Past Simple vs Present Perfect",
      "Basic Future forms (will/going to)",
      "Comparative and Superlative",
      "Modal verbs (can/could/should)",
      "Prepositions of time and place",
      "Question formation (WH-questions)",
      "Frequency adverbs",
      "There is/are constructions",
      "Basic conjunctions (and, but, or)",
      "Simple conditional (if + present)",
      "Possessive adjectives and pronouns"]
    vocabulary_themes := ["Personal information",
      "Family relationships",
      "Daily activities",
      "Food and meals",
      "Shopping items",
      "Transportation modes",
      "Weather conditions",
      "Hobbies and interests",
      "Body parts",
      "Health problems",
      "Home and furniture",
      "Time expressions"]
    cultural_contexts := ["Greetings and introductions",
      "Family customs",
      "Meal times",
      "Shopping etiquette",
      "Public transportation",
      "Weather talk",
      "Leisure activities",
      "Work schedules",
      "Healthcare visits",
      "Housing arrangements"]
    speaking_tasks := ["Describe daily routine",
      "Talk about family",
      "Order food",
      "Ask for directions",
      "Make appointments",
      "Express preferences",
      "Give personal information",
      "Talk about past experiences",
      "Make simple plans",
      "Describe living situation"]
    difficulty_indicators := ["Simple sentence structures",
      "Present tense dominant",
      "Concrete vocabulary",
      "Familiar topics",
      "Basic time concepts",
      "Simple descriptions",
      "Personal experiences"] }),
  ("IM2",
  {
    code := "IM2"
    name := "Intermediate Mid 2"
    description := "Most routine social exchanges with some complications"
    passing_score := 80
    color := "#2196F3"
    topics := ["Travel & Vacations",
      "Entertainment & Media",
      "Technology Use",
      "Education & Learning",
      "Work Situations",
      "Problem Solving",
      "Opinions & Preferences",
      "Cultural Events",
      "Health Issues",
      "Money & Banking",
      "Relationships",
      "Current Events Basic"]
    grammar_focus := ["Present Perfect vs Past Simple",
      "Present Perfect Continuous",
      "Past Continuous vs Past Simple",
      "Used to vs Would",
      "First Conditional",
      "Reported Speech basics",
      "Passive Voice present/past",
      "Relative Clauses (who/which/that)",
      "Modal verbs of possibility",
      "Gerunds vs Infinitives basics",
      "Linking words (because, although)",
      "Future plans and intentions"]
    vocabulary_themes := ["Travel and tourism",
      "Entertainment industry",
      "Technology devices",
      "Educational systems",
      "Workplace terminology",
      "Problem descriptions",
      "Opinion expressions",
      "Cultural activities",
      "Medical conditions",
      "Financial services",
      "Relationship types",
      "News and media"]
    cultural_contexts := ["Travel customs",
      "Entertainment preferences",
      "Technology adoption",
      "Education systems",
      "Work environments",
      "Problem-solving approaches",
      "Opinion sharing",
      "Cultural celebrations",
      "Healthcare systems",
      "Banking practices",
      "Social relationships",
      "Media consumption"]
    speaking_tasks := ["Plan a trip",
      "Discuss entertainment",
      "Explain technology use",
      "Talk about education",
      "Describe work experience",
      "Solve problems",
      "Express opinions",
      "Discuss cultural events",
      "Describe health issues",
      "Handle banking",
      "Talk about relationships",
      "Discuss current events"]
    difficulty_indicators := ["More complex sentence structures",
      "Past tense narratives",
      "Abstract concepts introduction",
      "Opinion expression",
      "Problem-solution patterns",
      "Cause-effect relationships"] }),
  ("IM3",
  {
    code := "IM3"
    name := "Intermediate Mid 3"
    description := "Complex social and work situations"
    passing_score := 80
    color := "#FF9800"
    topics := ["Career Development",
      "Social Issues",
      "Environmental Topics",
      "Cultural Differences",
      "Decision Making",
      "Problem Analysis",
      "Future Predictions",
      "Personal Goals",
      "Lifestyle Changes",
      "Technology Impact",
      "Education Systems",
      "Workplace Challenges"]
    grammar_focus := ["Second Conditional",
      "Present Perfect Continuous",
      "Future Perfect",
      "Passive Voice all tenses",
      "Advanced Relative Clauses",
      "Reported Speech advanced",
      "Gerunds vs Infinitives",
      "Modal verbs of deduction",
      "Complex conjunctions",
      "Cause and effect expressions",
      "Comparison structures",
      "Hypothetical situations"]
    vocabulary_themes := ["Career terminology",
      "Social problems",
      "Environmental issues",
      "Cultural concepts",
      "Decision processes",
      "Analysis vocabulary",
      "Future trends",
      "Goal setting",
      "Lifestyle choices",
      "Technology impact",
      "Educational methods",
      "Workplace dynamics"]
    cultural_contexts := ["Career progression",
      "Social awareness",
      "Environmental consciousness",
      "Cross-cultural understanding",
      "Decision-making styles",
      "Analytical thinking",
      "Future planning",
      "Personal development",
      "Lifestyle trends",
      "Technology integration",
      "Learning approaches",
      "Professional challenges"]
    speaking_tasks := ["Discuss career plans",
      "Analyze social issues",
      "Debate environmental topics",
      "Compare cultures",
      "Explain decisions",
      "Analyze problems",
      "Make predictions",
      "Set goals",
      "Discuss lifestyle changes",
      "Evaluate technology",
      "Compare education systems",
      "Handle workplace issues"]
    difficulty_indicators := ["Complex sentence structures",
      "Abstract reasoning",
      "Multiple perspectives",
      "Analytical thinking",
      "Future speculation",
      "Comparative analysis"] }),
  ("IH",
  {
    code := "IH"
    name := "Intermediate High"
    description := "Unexpected complications and abstract topics"
    passing_score := 80
    color := "#9C27B0"
    topics := ["Abstract Concepts",
      "Hypothetical Situations",
      "Complex Problem Solving",
      "Professional Communication",
      "Academic Topics",
      "Research & Analysis",
      "Innovation & Change",
      "Global Issues",
      "Ethics & Values",
      "Leadership & Management",
      "Conflict Resolution",
      "Future Scenarios"]
    grammar_focus := ["Third Conditional",
      "Mixed Conditionals",
      "Advanced Modal verbs",
      "Inversion structures",
      "Subjunctive mood",
      "Cleft sentences",
      "Advanced Passive constructions",
      "Complex sentence structures",
      "Advanced reported speech",
      "Discourse markers",
      "Emphatic structures",
      "Advanced conjunctions"]
    vocabulary_themes := ["Abstract concepts",
      "Hypothetical language",
      "Problem-solving vocabulary",
      "Professional terminology",
      "Academic language",
      "Research methods",
      "Innovation concepts",
      "Global terminology",
      "Ethical vocabulary",
      "Leadership language",
      "Conflict resolution",
      "Future scenarios"]
    cultural_contexts := ["Abstract thinking",
      "Hypothetical reasoning",
      "Complex problem solving",
      "Professional environments",
      "Academic settings",
      "Research culture",
      "Innovation mindset",
      "Global perspective",
      "Ethical considerations",
      "Leadership styles",
      "Conflict management",
      "Future planning"]
    speaking_tasks := ["Discuss abstract ideas",
      "Handle hypothetical situations",
      "Solve complex problems",
      "Communicate professionally",
      "Present academic topics",
      "Analyze research",
      "Discuss innovation",
      "Address global issues",
      "Explore ethics",
      "Demonstrate leadership",
      "Resolve conflicts",
      "Plan future scenarios"]
    difficulty_indicators := ["Abstract conceptualization",
      "Hypothetical reasoning",
      "Complex argumentation",
      "Professional discourse",
      "Academic language use",
      "Sophisticated analysis"] }),
  ("AL",
  {
    code := "AL"
    name := "Advanced Low"
    description := "Most situations with confidence and nuanced expressions"
    passing_score := 80
    color := "#795548"
    topics := ["Academic Research",
      "Professional Presentations",
      "Complex Negotiations",
      "Policy Analysis",
      "Scientific Concepts",
      "Philosophical Ideas",
      "Historical Analysis",
      "Economic Theories",
      "Social Psychology",
      "Cross-cultural Communication",
      "Advanced Technology",
      "Innovation Management"]
    grammar_focus := ["Advanced Conditionals",
      "Sophisticated Modal usage",
      "Complex Inversion",
      "Advanced Subjunctive",
      "Nominalization",
      "Advanced Passive structures",
      "Discourse markers",
      "Academic writing structures",
      "Complex clause combinations",
      "Advanced cohesion devices",
      "Sophisticated conjunctions",
      "Register variation"]
    vocabulary_themes := ["Academic terminology",
      "Professional presentations",
      "Negotiation language",
      "Policy vocabulary",
      "Scientific terminology",
      "Philosophical concepts",
      "Historical analysis",
      "Economic language",
      "Psychology terms",
      "Cross-cultural concepts",
      "Advanced technology",
      "Innovation management"]
    cultural_contexts := ["Academic environments",
      "Professional presentations",
      "Business negotiations",
      "Policy making",
      "Scientific research",
      "Philosophical discourse",
      "Historical interpretation",
      "Economic analysis",
      "Psychological understanding",
      "Cultural sensitivity",
      "Technology adoption",
      "Innovation culture"]
    speaking_tasks := ["Present research",
      "Deliver presentations",
      "Negotiate agreements",
      "Analyze policies",
      "Explain scientific concepts",
      "Discuss philosophy",
      "Interpret history",
      "Analyze economics",
      "Explore psychology",
      "Navigate cultures",
      "Evaluate technology",
      "Manage innovation"]
    difficulty_indicators := ["Academic discourse",
      "Professional fluency",
      "Sophisticated argumentation",
      "Nuanced expression",
      "Complex analysis",
      "Specialized terminology"] }),
  ("AM",
  {
    code := "AM"
    name := "Advanced Mid"
    description := "All routine and most non-routine situations"
    passing_score := 80
    color := "#607D8B"
    topics := ["Specialized Professional Fields",
      "Advanced Academic Discourse",
      "Complex Problem Analysis",
      "Strategic Planning",
      "Research Methodology",
      "Advanced Cultural Analysis",
      "Sophisticated Argumentation",
      "Expert-level Communication",
      "Advanced Technical Topics",
      "High-level Negotiations",
      "Complex Project Management",
      "Advanced Leadership"]
    grammar_focus := ["Near-native grammar structures",
      "Sophisticated register variation",
      "Advanced cohesion devices",
      "Complex clause structures",
      "Advanced hedging language",
      "Sophisticated emphasis structures",
      "Advanced reported speech",
      "Complex temporal relationships",
      "Advanced modal combinations",
      "Sophisticated discourse management",
      "Complex nominalization",
      "Advanced stylistic devices"]
    vocabulary_themes := ["Specialized professions",
      "Advanced academics",
      "Complex analysis",
      "Strategic terminology",
      "Research vocabulary",
      "Cultural analysis",
      "Sophisticated argumentation",
      "Expert communication",
      "Technical language",
      "High-level negotiations",
      "Project management",
      "Advanced leadership"]
    cultural_contexts := ["Professional specialization",
      "Academic excellence",
      "Complex problem solving",
      "Strategic thinking",
      "Research methodology",
      "Cultural sophistication",
      "Advanced argumentation",
      "Expert communication",
      "Technical proficiency",
      "High-level negotiations",
      "Project leadership",
      "Advanced management"]
    speaking_tasks := ["Expert professional communication",
      "Advanced academic discourse",
      "Complex problem analysis",
      "Strategic planning",
      "Research presentation",
      "Cultural analysis",
      "Sophisticated argumentation",
      "Expert consultation",
      "Technical explanation",
      "High-level negotiation",
      "Project leadership",
      "Advanced management communication"]
    difficulty_indicators := ["Professional expertise",
      "Academic sophistication",
      "Complex analytical thinking",
      "Strategic communication",
      "Research proficiency",
      "Cultural expertise"] }),
  ("AH",
  {
    code := "AH"
    name := "Advanced High"
    description := "Near-native proficiency with cultural mastery"
    passing_score := 80
    color := "#E91E63"
    topics := ["Expert Professional Communication",
      "Advanced Academic Research",
      "Complex Cultural Analysis",
      "Sophisticated Argumentation",
      "High-level Strategic Thinking",
      "Advanced Problem Solving",
      "Expert Presentations",
      "Complex Negotiations",
      "Advanced Leadership Communication",
      "Sophisticated Analysis",
      "Expert-level Discussions",
      "Near-native Interactions"]
    grammar_focus := ["Native-like structures",
      "Advanced stylistic variation",
      "Sophisticated discourse management",
      "Complex pragmatic awareness",
      "Advanced register control",
      "Sophisticated emphasis and focus",
      "Complex grammatical metaphor",
      "Advanced textual organization",
      "Native-like fluency markers",
      "Sophisticated hedging",
      "Complex modal meanings",
      "Advanced pragmatic competence"]
    vocabulary_themes := ["Expert professional language",
      "Advanced research terminology",
      "Complex cultural concepts",
      "Sophisticated argumentation",
      "Strategic thinking vocabulary",
      "Advanced problem solving",
      "Expert presentation language",
      "Complex negotiation terms",
      "Advanced leadership concepts",
      "Sophisticated analysis",
      "Expert discussion language",
      "Near-native expressions"]
    cultural_contexts := ["Expert professional culture",
      "Advanced academic culture",
      "Complex cultural understanding",
      "Sophisticated discourse",
      "Strategic thinking culture",
      "Advanced problem-solving mindset",
      "Expert presentation culture",
      "Complex negotiation environment",
      "Advanced leadership culture",
      "Sophisticated analytical thinking",
      "Expert discussion culture",
      "Near-native cultural competence"]
    speaking_tasks := ["Expert professional discourse",
      "Advanced academic research presentation",
      "Complex cultural analysis",
      "Sophisticated debate and argumentation",
      "High-level strategic communication",
      "Advanced problem-solving discussion",
      "Expert-level presentations",
      "Complex high-stakes negotiations",
      "Advanced leadership communication",
      "Sophisticated analytical discourse",
      "Expert-level academic and professional discussions",
      "Near-native social interactions"]
    difficulty_indicators := ["Near-native fluency",
      "Expert-level discourse",
      "Sophisticated cultural competence",
      "Advanced pragmatic skills",
      "Complex analytical ability",
      "Native-like communication patterns"] })
]


/-- `OpicStructure.get_level` (src/Models/opic_structure.py 400-403):
`LEVELS.get(level_code)`, `None` when unknown. -/
def getLevel (level_code : String) : Option OpicLevel :=
  LEVELS.lookup level_code

/-- `OpicStructure.is_valid_level` (src/Models/opic_structure.py 444-447):
`level_code in cls.LEVELS`. -/
def isValidLevel (level_code : String) : Bool :=
  (getLevel level_code).isSome

/-- `OpicStructure.get_level_topics` (src/Models/opic_structure.py 410-414):
the level's topics, or `[]` for an unknown code. -/
def getLevelTopics (level_code : String) : List String :=
  match getLevel level_code with
  | some level => level.topics
  | none => []

/-! ## Generation pipeline (src/services/ai_service.py) -/

/-- The `GenerationRequest` dataclass (src/services/ai_service.py 16-24). -/
structure GenerationRequest where
  level : String
  topic : String
  count : Int := 10
  difficulty_progression : Bool := true
  cultural_context : Bool := true
  grammar_focus : Option (List String) := none
deriving Repr, DecidableEq

/-- One validated question dict as `_parse_and_validate_questions` builds it
(src/services/ai_service.py 316-324); `generated_at` is
`datetime.now().isoformat()`, modelled as an explicit clock string. -/
structure Question where
  sentence : String
  correctAnswer : String
  explanation : String
  wrongAnswers : List String
  level : String
  topic : String
  generated_at : String
deriving Repr, DecidableEq

/-- The `GenerationResult` dataclass (src/services/ai_service.py 26-33).
`generation_time` is a wall-clock float in the source, modelled in abstract
clock units. -/
structure GenerationResult where
  success : Bool
  questions : List Question
  error_message : Option String := none
  generation_time : Option Nat := none
  api_usage : Option (List (String × Int)) := none
deriving Repr

/-- The dict `_call_api` returns (src/services/ai_service.py 209-273): either
`success` with the first choice's message content and the usage object, or a
failure with a distinct error string per failure mode.  The transport itself
(HTTP, timeouts) is outside the model; theorems quantify over this outcome. -/
structure ApiCallResult where
  success : Bool
  content : String := ""
  error : String := ""
  usage : List (String × Int) := []
deriving Repr, DecidableEq

/-- `AIService._validate_request` (src/services/ai_service.py 122-136):
reject falsy (empty) level or topic, unknown level codes, topics outside the
level's topic list, and counts outside 1..20. -/
def validateRequest (request : GenerationRequest) : Bool :=
  if request.level == "" || request.topic == "" then false
  else if !(isValidLevel request.level) then false
  else if !((getLevelTopics request.level).contains request.topic) then false
  else if request.count < 1 || request.count > 20 then false
  else true

/-- Whether the needle is a prefix of the haystack. -/
def charsHasPre : List Char → List Char → Bool
  | [], _ => true
  | _ :: _, [] => false
  | n :: ns, h :: hs => n == h && charsHasPre ns hs

/-- Whether the needle occurs contiguously inside the haystack (Python's
substring `in`). -/
def charsContainsSub (needle : List Char) : List Char → Bool
  | [] => needle.isEmpty
  | h :: hs => charsHasPre needle (h :: hs) || charsContainsSub needle hs

/-- Python `item in container` for decoded JSON values: key membership for
dicts, substring for strings, element membership for lists; `None` models the
`TypeError` that `in` raises on numbers, booleans and `null`. -/
def pyContains (item : String) : JValue → Option Bool
  | .jobj fields => some (fields.any (fun p => p.1 == item))
  | .jstr s => some (charsContainsSub item.data s.data)
  | .jarr xs => some (xs.any (fun x => beqJValue x (.jstr item)))
  | .jnull => none
  | .jbool _ => none
  | .jnum _ => none

/-- Python dict lookup where a duplicate key in the JSON text ends up with
its last value (`json.loads` builds the dict by successive assignment). -/
def pyDictGet (key : String) : List (String × JValue) → Option JValue
  | [] => none
  | (k, v) :: rest =>
    match pyDictGet key rest with
    | some v2 => some v2
    | none => if k == key then some v else none

/-- Python `container[key]` with a string key: dict lookup; `None` models the
`TypeError` raised when subscripting a string or list with a string key. -/
def pyGetItem (container : JValue) (key : String) : Option JValue :=
  match container with
  | .jobj fields => pyDictGet key fields
  | _ => none

/-- The whitespace characters Python `str.strip()` removes (the ASCII ones;
the source strings are ASCII/UTF-8 text where only these occur). -/
def pyIsSpace (c : Char) : Bool :=
  c = ' ' || c = '\t' || c = '\n' || c = '\r' || c = '\x0b' || c = '\x0c'

/-- Python `str.strip()` on a character list: drop leading and trailing
whitespace. -/
def stripChars (l : List Char) : List Char :=
  ((l.dropWhile pyIsSpace).reverse.dropWhile pyIsSpace).reverse

/-- Python `str.strip()`. -/
def pyStrip (s : String) : String :=
  String.mk (stripChars s.data)

/-- Python `.strip()`: defined on strings only; `None` models the
`AttributeError` on any other value. -/
def pyStripStr : JValue → Option String
  | .jstr s => some (pyStrip s)
  | _ => none

/-- `[ans.strip() for ans in ...]`: `None` as soon as one element is not a
string (the comprehension's `AttributeError`). -/
def pyStripList : List JValue → Option (List String)
  | [] => some []
  | v :: rest =>
    match pyStripStr v, pyStripList rest with
    | some s, some ss => some (s :: ss)
    | _, _ => none

/-- The `required_fields` list (src/services/ai_service.py line 300). -/
def required_fields : List String := ["sentence", "correctAnswer", "explanation", "wrongAnswers"]

/-- `all(field in question for field in required_fields)` with Python's
short-circuit evaluation; `None` models a raised `TypeError`. -/
def pyAllContains (fields : List String) (question : JValue) : Option Bool :=
  match fields with
  | [] => some true
  | f :: rest =>
    match pyContains f question with
    | none => none
    | some false => some false
    | some true => pyAllContains rest question

/-- The cleaning step for an element that passed the three checks
(src/services/ai_service.py 315-324): strip sentence, correct answer and
explanation, keep the first four wrong answers stripped, and attach the
request's level/topic and the generation timestamp.  An `.error` models a
raised `TypeError`/`AttributeError` (non-string field values); the exact
interpreter message text is abbreviated, no claim depends on it. -/
def buildCleanedQuestion (request : GenerationRequest) (now : String)
    (question sentenceVal : JValue) (ws : List JValue) : Except String (Option Question) :=
  match pyStripStr sentenceVal with
  | none => .error "AttributeError"
  | some s =>
    match pyGetItem question "correctAnswer" with
    | none => .error "TypeError"
    | some ca =>
      match pyStripStr ca with
      | none => .error "AttributeError"
      | some cas =>
        match pyGetItem question "explanation" with
        | none => .error "TypeError"
        | some ex =>
          match pyStripStr ex with
          | none => .error "AttributeError"
          | some exs =>
            match pyStripList (ws.take 4) with
            | none => .error "AttributeError"
            | some was =>
              .ok (some { sentence := s
                          correctAnswer := cas
                          explanation := exs
                          wrongAnswers := was
                          level := request.level
                          topic := request.topic
                          generated_at := now })

/-- One iteration of the validation loop body (src/services/ai_service.py
298-324): `.ok none` is a `continue` (element skipped with a logged warning),
`.ok (some q)` a validated element, `.error` a raised exception that aborts
the whole call. -/
def validateItem (request : GenerationRequest) (now : String) (question : JValue) :
    Except String (Option Question) :=
  match pyAllContains required_fields question with
  | none => .error "TypeError"
  | some false => .ok none
  | some true =>
    match pyGetItem question "sentence" with
    | none => .error "TypeError"
    | some sentenceVal =>
      match pyContains "_____" sentenceVal with
      | none => .error "TypeError"
      | some hasBlank =>
        if !hasBlank then .ok none
        else
          match pyGetItem question "wrongAnswers" with
          | none => .error "TypeError"
          | some wrongVal =>
            match wrongVal with
            | .jarr ws =>
              if ws.length < 4 then .ok none
              else buildCleanedQuestion request now question sentenceVal ws
            | _ => .ok none

/-- The `for i, question in enumerate(questions)` loop
(src/services/ai_service.py 296-330): accumulate validated elements, skip
invalid ones, abort on a raised exception, and `break` as soon as the
accumulator has reached `request.count` entries (checked right after each
append). -/
def validateLoop (request : GenerationRequest) (now : String) :
    List JValue → List Question → Except String (List Question)
  | [], acc => .ok acc
  | question :: rest, acc =>
    match validateItem request now question with
    | .error e => .error e
    | .ok none => validateLoop request now rest acc
    | .ok (some vq) =>
      let acc2 := acc ++ [vq]
      if request.count ≤ (acc2.length : Int) then .ok acc2
      else validateLoop request now rest acc2

/-- End of `_parse_and_validate_questions` after a successful `json.loads`
of a list (src/services/ai_service.py 296-342): run the loop; an empty
result raises `ValueError("No valid questions found in response")` and any
raised exception is re-raised as `ValueError("Question validation failed:
...")` by the blanket handler. -/
def processQuestionArray (request : GenerationRequest) (now : String)
    (items : List JValue) : Except String (List Question) :=
  match validateLoop request now items [] with
  | .error e => .error ("Question validation failed: " ++ e)
  | .ok [] => .error "Question validation failed: No valid questions found in response"
  | .ok qs => .ok qs

/-- Python `str.find`: index of the first occurrence, `-1` when absent. -/
def firstIdxOf (c : Char) : List Char → Option Nat
  | [] => none
  | x :: rest => if x == c then some 0 else (firstIdxOf c rest).map (· + 1)

/-- Python `str.find` as an `Int` (`-1` sentinel included). -/
def pyFind (c : Char) (l : List Char) : Int :=
  match firstIdxOf c l with
  | some i => (i : Int)
  | none => -1

/-- Python `str.rfind`: highest index of an occurrence, `-1` when absent. -/
def pyRFind (c : Char) (l : List Char) : Int :=
  match firstIdxOf c l.reverse with
  | some j => (l.length : Int) - 1 - (j : Int)
  | none => -1

/-- Python `s[start:stop]` for the non-negative indices this code produces. -/
def pySlice (l : List Char) (start stop : Int) : List Char :=
  (l.take stop.toNat).drop start.toNat

/-- The array-extraction step (src/services/ai_service.py 281-289), applied
to the already stripped content: keep content that starts with `[` whole;
otherwise slice from the first `[` to the last `]` inclusive when both exist,
and fail (`ValueError("No JSON array found in response")`) otherwise. -/
def extractArrayContent (stripped : List Char) : Option (List Char) :=
  if stripped.head? == some '[' then some stripped
  else
    let start_idx := pyFind '[' stripped
    let end_idx := pyRFind ']' stripped + 1
    if start_idx != -1 && end_idx != 0 then some (pySlice stripped start_idx end_idx)
    else none

/-- `AIService._parse_and_validate_questions` (src/services/ai_service.py
275-342): strip the reply, extract the array text, `json.loads` it (a decode
failure is reported as `ValueError("Invalid JSON in API response: ...")`,
whose interpreter-generated detail suffix is omitted here), reject non-list
documents, and validate the elements. -/
def parseAndValidateQuestions (request : GenerationRequest) (now : String)
    (content : String) : Except String (List Question) :=
  let stripped := stripChars content.data
  match extractArrayContent stripped with
  | none => .error "Question validation failed: No JSON array found in response"
  | some arrChars =>
    match jsonLoads (String.mk arrChars) with
    | none => .error "Invalid JSON in API response"
    | some (.jarr items) => processQuestionArray request now items
    | some _ => .error "Question validation failed: Response is not a list"

/-- `AIService._create_comprehensive_prompt` (src/services/ai_service.py
138-207): pure string assembly of the instruction block.  Python's falsy
`or` makes an empty override list fall back to the level's grammar focus.
The braces and apostrophes of the source text are written with `\x7b`,
`\x7d` and `\x27` escapes. -/
def createComprehensivePrompt (request : GenerationRequest) (level_info : OpicLevel) : String :=
  let grammar_focus := match request.grammar_focus with
    | some gf => if gf.isEmpty then level_info.grammar_focus else gf
    | none => level_info.grammar_focus
  let selected_grammar := grammar_focus.take (min 8 grammar_focus.length)
  "Generate " ++ toString request.count ++ " comprehensive OPIC " ++ request.level
    ++ " (" ++ level_info.name ++ ") English fill-in-the-blank questions for the topic: \""
    ++ request.topic ++ "\".\n\nCRITICAL OPIC " ++ request.level
    ++ " REQUIREMENTS:\n1. Questions must reflect ACTUAL OPIC " ++ request.level
    ++ " difficulty and assessment criteria\n2. Cover key grammar patterns: "
    ++ String.intercalate ", " selected_grammar
    ++ "\n3. Use vocabulary and sentence structures appropriate for: " ++ level_info.description
    ++ "\n4. Each question should test different specific grammar points from the focus list\n5. "
    ++ (if request.difficulty_progression
        then "Progressive difficulty (questions 1-3 easier, 4-7 medium, 8-10 harder)"
        else "Consistent difficulty appropriate for " ++ request.level)
    ++ "\n6. Include realistic OPIC speaking test contexts and scenarios\n7. "
    ++ (if request.cultural_context
        then "Test cultural knowledge and situational appropriateness"
        else "Focus on grammatical accuracy")
    ++ "\n\nTOPIC FOCUS: \"" ++ request.topic
    ++ "\" - All questions must relate to this topic area\nLEVEL DESCRIPTION: "
    ++ level_info.description
    ++ "\nGRAMMAR PATTERNS TO TEST: " ++ String.intercalate ", " selected_grammar
    ++ "\nCULTURAL CONTEXTS: " ++ String.intercalate ", " (level_info.cultural_contexts.take 5)
    ++ "\nSPEAKING TASKS: " ++ String.intercalate ", " (level_info.speaking_tasks.take 5)
    ++ "\n\nQUALITY STANDARDS FOR OPIC " ++ request.level
    ++ ":\n- Sentences must sound natural in real OPIC interview contexts\n- Grammar complexity appropriate for "
    ++ request.level ++ " proficiency level\n- Wrong answers should represent common "
    ++ request.level
    ++ " student errors\n- Cultural contexts should be appropriate for international test-takers\n- Vocabulary level should match OPIC "
    ++ request.level
    ++ " expectations\n- Test both grammatical accuracy and pragmatic appropriateness\n\nDIFFICULTY INDICATORS FOR "
    ++ request.level ++ ":\n"
    ++ String.intercalate "\n" (level_info.difficulty_indicators.map (fun indicator => "- " ++ indicator))
    ++ "\n\nFor each question provide:\n- sentence: Natural, conversational sentence with ONE blank (use _____ for blank)\n- correctAnswer: Grammatically correct answer (single word or short phrase)\n- explanation: Detailed Vietnamese explanation including:\n  * Specific grammar rule being tested and why\n  * Why this answer demonstrates OPIC "
    ++ request.level
    ++ " proficiency\n  * Common mistakes students make at this level\n  * How this grammar point appears in OPIC speaking contexts\n  * Cultural or pragmatic information if relevant\n  * Connection to "
    ++ request.topic
    ++ " topic area\n- wrongAnswers: Exactly 4 plausible incorrect options that represent:\n  * Common grammar mistakes at "
    ++ request.level ++ " level\n  * Vocabulary confusion typical for "
    ++ request.level
    ++ " students\n  * False friends or similar structures from other levels\n  * Overgeneralization errors from simpler grammar rules\n\nCONTEXT REQUIREMENTS:\n- Use realistic "
    ++ request.topic
    ++ " scenarios that could appear in OPIC interviews\n- Include appropriate register and formality for the situation\n- Ensure cultural sensitivity and international relevance\n- Connect to typical OPIC speaking tasks: "
    ++ String.intercalate ", " (level_info.speaking_tasks.take 3)
    ++ "\n\nGenerate exactly " ++ toString request.count
    ++ " questions as a valid JSON array. Ensure variety in grammar points tested and "
    ++ (if request.difficulty_progression
        then "clear progression in difficulty"
        else "consistent appropriate difficulty")
    ++ ".\n\nEXAMPLE FORMAT (adapt complexity for " ++ request.level
    ++ "):\n\x7b\n  \"sentence\": \"When discussing " ++ request.topic.toLower
    ++ " in an OPIC interview, this approach _____ the most effective results.\",\n  \"correctAnswer\": \"produces\",\n  \"explanation\": \"Giải thích OPIC "
    ++ request.level
    ++ ": Câu hỏi này kiểm tra khả năng sử dụng động từ \x27produce\x27 trong ngữ cảnh chuyên môn về "
    ++ request.topic ++ ". Ở mức OPIC " ++ request.level
    ++ ", thí sinh cần thành thạo việc diễn đạt kết quả và hiệu quả. \x27Produce results\x27 là collocation quan trọng trong tiếng Anh chuyên nghiệp. Sai lầm phổ biến ở level này là dùng \x27make\x27 hoặc \x27create\x27 thay vì \x27produce\x27.\",\n  \"wrongAnswers\": [\"makes\", \"creates\", \"gives\", \"brings\"]\n\x7d"

/-- `AIService.generate_questions` (src/services/ai_service.py 56-120): the
pipeline around the one transport call, whose outcome `api_response` is an
explicit argument (the source performs it between prompt construction and
parsing).  Every raised exception is caught and converted to a failure
result; `now` feeds `generated_at` and `gen_time` the elapsed-time field. -/
def generateQuestions (request : GenerationRequest) (api_response : ApiCallResult)
    (now : String) (gen_time : Nat) : GenerationResult :=
  if !(validateRequest request) then
    { success := false, questions := [], error_message := some "Invalid request parameters" }
  else
    match getLevel request.level with
    | none =>
      { success := false, questions := []
        error_message := some ("Invalid level: " ++ request.level) }
    | some level_info =>
      let _prompt := createComprehensivePrompt request level_info
      if !api_response.success then
        { success := false, questions := [], error_message := some api_response.error }
      else
        match parseAndValidateQuestions request now api_response.content with
        | .error e => { success := false, questions := [], error_message := some e }
        | .ok qs =>
          { success := true, questions := qs
            generation_time := some gen_time, api_usage := some api_response.usage }

/-! ## Concrete fixtures used by witnesses -/

/-- A well-formed request for one question on a valid level/topic pair. -/
def reqOne : GenerationRequest :=
  { level := "IM1", topic := "Daily Routines", count := 1 }

/-- A well-formed request for two questions on a valid level/topic pair. -/
def reqTwo : GenerationRequest :=
  { level := "IM1", topic := "Daily Routines", count := 2 }

/-- A reply element that passes every validation check (five wrong answers,
of which only the first four survive). -/
def validItemJson : JValue :=
  .jobj [("sentence", .jstr "I _____ breakfast."),
         ("correctAnswer", .jstr "have"),
         ("explanation", .jstr "e"),
         ("wrongAnswers", .jarr [.jstr "a", .jstr "b", .jstr "c", .jstr "d", .jstr "x"])]

/-- The validated record `validItemJson` cleans to at timestamp `"T"` for a
request on `IM1`/`Daily Routines`. -/
def validItemCleaned : Question :=
  { sentence := "I _____ breakfast.", correctAnswer := "have", explanation := "e"
    wrongAnswers := ["a", "b", "c", "d"], level := "IM1", topic := "Daily Routines"
    generated_at := "T" }

/-- The body of a two-element JSON array of valid items (the text between
the array's opening bracket and its closing bracket). -/
def twoItemBody : String :=
  "\x7b\"sentence\": \"I _____ breakfast.\", \"correctAnswer\": \"have\", \"explanation\": \"e\", \"wrongAnswers\": [\"a\", \"b\", \"c\", \"d\", \"x\"]\x7d, \x7b\"sentence\": \"I _____ breakfast.\", \"correctAnswer\": \"have\", \"explanation\": \"e\", \"wrongAnswers\": [\"a\", \"b\", \"c\", \"d\", \"x\"]\x7d"

/-- A reply embedding that two-element array in surrounding prose. -/
def twoItemReply : String :=
  "Here: [" ++ twoItemBody ++ "] end"

/-! # Theorems -/


/-! ## Store lemmas -/

theorem lookup_upsertTopic (db : TopicDB) (key : String × String) (row : TopicProgressRow) :
    (upsertTopic db key row).lookup key = some row := by
  simp [upsertTopic, List.lookup]

theorem listIndex_eq_none_of_not_mem (target : String) :
    ∀ l : List String, target ∉ l → listIndex target l = none := by
  intro l h
  induction l with
  | nil => rfl
  | cons a rest ih =>
    have ha : ¬(a = target) := fun hc => h (hc ▸ List.mem_cons_self a rest)
    have hrest : target ∉ rest := fun hc => h (List.mem_cons_of_mem a hc)
    simp [listIndex, ha, ih hrest]

theorem lookup_filter_ne_key {β : Type} (db : List ((String × String) × β)) (key : String × String) :
    (db.filter (fun p => !(p.1 == key))).lookup key = none := by
  induction db with
  | nil => rfl
  | cons a rest ih =>
    by_cases h : a.1 = key
    · simp [List.filter, h, ih]
    · have hb : (a.1 == key) = false := beq_false_of_ne h
      have hb2 : (key == a.1) = false := beq_false_of_ne (fun hc => h hc.symm)
      simp [List.filter, hb, List.lookup, hb2, ih]

theorem lookup_filter_other_key {β : Type} (db : List ((String × String) × β))
    (key other : String × String) (hne : other ≠ key) :
    (db.filter (fun p => !(p.1 == key))).lookup other = db.lookup other := by
  induction db with
  | nil => rfl
  | cons a rest ih =>
    have hkey : (other == key) = false := beq_false_of_ne hne
    by_cases h : a.1 = key
    · simp [List.filter, h, List.lookup, hkey, ih]
    · have hb : (a.1 == key) = false := beq_false_of_ne h
      by_cases h2 : a.1 = other
      · simp [List.filter, hb, List.lookup, h2, hkey]
      · have hb2 : (other == a.1) = false := beq_false_of_ne (fun hc => h2 hc.symm)
        simp [List.filter, hb, List.lookup, hb2, ih]

/-! ## Claim C1 -/

/-- C1: `update_topic_progress` merges each call into the stored row: the new
best score is the maximum of the old best score and the session score (so the
best score never decreases), attempts grow by exactly one, the cumulative
question/correct counts grow by the session's counts, and the stored
completion flag is true exactly when the resulting best score is at least 80. -/
theorem update_topic_progress_merge (db : TopicDB) (level topic : String)
    (score q c : Int) (now : Nat) :
    let old := getTopicProgress db level topic
    let row := getTopicProgress (updateTopicProgress db level topic score q c now) level topic
    row.best_score = max old.best_score score ∧
    old.best_score ≤ row.best_score ∧
    row.attempts = old.attempts + 1 ∧
    row.total_questions = old.total_questions + q ∧
    row.correct_answers = old.correct_answers + c ∧
    (row.is_completed = true ↔ row.best_score ≥ 80) := by
  intro old row
  have hrow : row = { best_score := max old.best_score score
                      attempts := old.attempts + 1
                      total_questions := old.total_questions + q
                      correct_answers := old.correct_answers + c
                      last_attempt := some now
                      is_completed := decide (max old.best_score score ≥ 80) } := by
    show getTopicProgress (updateTopicProgress db level topic score q c now) level topic = _
    unfold getTopicProgress updateTopicProgress
    rw [lookup_upsertTopic]
  refine ⟨by rw [hrow], ?_, by rw [hrow], by rw [hrow], by rw [hrow], ?_⟩
  · rw [hrow]; exact le_max_left _ _
  · rw [hrow]; simp

/-! ## Claim C10 -/

/-- C10: at the boundaries of the fixed seven-level order the lookups return
`None` instead of failing: `get_next_level` returns `None` for the last level
`AH` and for every code outside the order, and `get_previous_level` returns
`None` for the first level `IM1` and for every code outside the order. -/
theorem level_order_boundary_lookups :
    getNextLevel "AH" = none ∧ getPreviousLevel "IM1" = none ∧
    (∀ code : String, code ∉ LEVEL_ORDER →
      getNextLevel code = none ∧ getPreviousLevel code = none) := by
  refine ⟨by decide, by decide, ?_⟩
  intro code hcode
  have h := listIndex_eq_none_of_not_mem code LEVEL_ORDER hcode
  constructor
  · unfold getNextLevel; rw [h]
  · unfold getPreviousLevel; rw [h]

/-- Witness for C10 at the concrete unknown code `"ZZ"`. -/
theorem level_order_boundary_lookups_witness :
    getNextLevel "AH" = none ∧ getPreviousLevel "IM1" = none ∧
    (getNextLevel "ZZ" = none ∧ getPreviousLevel "ZZ" = none) :=
  ⟨level_order_boundary_lookups.1, level_order_boundary_lookups.2.1,
    level_order_boundary_lookups.2.2 "ZZ" (by decide)⟩

/-! ## Claim C2 -/

/-- C2, counterexample: storing the boolean `True` under `sound_enabled` and
reading it back yields the *string* `"True"`, not the boolean `True`:
`set_setting` stringifies the scalar with Python `str`, producing `"True"`,
which is not valid JSON (`json.loads` only accepts lowercase `true`), so
`get_setting`'s decode fails and the raw-string fallback is returned. -/
theorem settings_roundtrip_bool_counterexample :
    getSetting (setSetting [] "sound_enabled" (.vbool true)) "sound_enabled" .vnone
      = .vstr "True" ∧
    getSetting (setSetting [] "sound_enabled" (.vbool true)) "sound_enabled" .vnone
      ≠ .vbool true := by
  refine ⟨rfl, ?_⟩
  intro h
  rw [show getSetting (setSetting [] "sound_enabled" (.vbool true)) "sound_enabled" .vnone
        = .vstr "True" from rfl] at h
  exact PyVal.noConfusion h

/-- C3: caching questions and reading them back before the expiry instant
returns exactly the cached list; reading at or after the expiry instant
returns `None` and deletes the stale row, so a direct existence check on the
resulting table finds no row for the key. -/
theorem cache_roundtrip_and_expiry (db : CacheDB) (level topic : String)
    (questions : QuestionData) (ttl now t1 t2 : Nat)
    (h1 : t1 < now + ttl * 3600) (h2 : now + ttl * 3600 ≤ t2) :
    let db1 := cacheQuestions db level topic questions ttl now
    (getCachedQuestions db1 level topic t1).2 = some questions ∧
    (getCachedQuestions db1 level topic t2).2 = none ∧
    ((getCachedQuestions db1 level topic t2).1).lookup (level, topic) = none := by
  intro db1
  have hlook : db1.lookup (level, topic)
      = some { question_data := questions, created_at := now, expires_at := now + ttl * 3600 } := by
    simp [db1, cacheQuestions, List.lookup]
  have hnotlt : ¬(t2 < now + ttl * 3600) := not_lt.mpr h2
  refine ⟨?_, ?_, ?_⟩
  · simp [getCachedQuestions, hlook, h1]
  · simp [getCachedQuestions, hlook, hnotlt]
  · simp only [getCachedQuestions, hlook, hnotlt, if_false]
    exact lookup_filter_ne_key db1 (level, topic)

/-- Witness for C3: one concrete row cached at time 0 with a one-hour TTL,
read back at times 5 (fresh) and 3600 (expired). -/
theorem cache_roundtrip_and_expiry_witness :
    let db1 := cacheQuestions [] "IM1" "Daily Routines" [.jstr "q"] 1 0
    (getCachedQuestions db1 "IM1" "Daily Routines" 5).2 = some [.jstr "q"] ∧
    (getCachedQuestions db1 "IM1" "Daily Routines" 3600).2 = none ∧
    ((getCachedQuestions db1 "IM1" "Daily Routines" 3600).1).lookup ("IM1", "Daily Routines") = none :=
  cache_roundtrip_and_expiry [] "IM1" "Daily Routines" [.jstr "q"] 1 0 5 3600
    (by decide) (by decide)

theorem sqliteTextLt_append_common (p : List Char) (a b : Char) (x y : List Char) :
    sqliteTextLt (p ++ a :: x) (p ++ b :: y)
      = (if a.toNat < b.toNat then true
         else if b.toNat < a.toNat then false
         else sqliteTextLt x y) := by
  induction p with
  | nil => rfl
  | cons c t ih => simp [sqliteTextLt, ih]

/-- C8, counterexample: take the machine clock in UTC and a row whose stored
expiry text is `"2026-10-12T05:00:00.123456"`, swept at 10:00 the same day.
The expiry instant has long passed — its isoformat sorts below the sweep
instant's isoformat `"2026-10-12T10:00:00"` — yet the `DELETE` compares the
stored text against `CURRENT_TIMESTAMP = "2026-10-12 10:00:00"`, and since
the `'T'` separator sorts above `' '`, the row is *not* deleted; and the
method returns `None`, not the claimed deletion count. -/
theorem clear_expired_cache_counterexample :
    sqliteTextLt "2026-10-12T05:00:00.123456".data "2026-10-12T10:00:00".data = true ∧
    clearExpiredCache
      [(("IM1", "Daily Routines"),
        { question_data := [], created_at := "2026-10-11T05:00:00.123456"
          expires_at := "2026-10-12T05:00:00.123456" })]
      "2026-10-12 10:00:00"
      = ([(("IM1", "Daily Routines"),
        { question_data := [], created_at := "2026-10-11T05:00:00.123456"
          expires_at := "2026-10-12T05:00:00.123456" })], none) :=
  ⟨rfl, rfl⟩

/-- C8 as amended: `clear_expired_cache` deletes exactly the rows whose
stored isoformat expiry TEXT sorts below SQLite's space-separated UTC
`CURRENT_TIMESTAMP` text under BINARY collation — in particular, whenever
the stored text and the `CURRENT_TIMESTAMP` text share their date prefix
and then split as `'T'` versus `' '`, the row survives even though its
expiry time has passed — and the method returns `None`; the deletion count
is only logged. -/
theorem clear_expired_cache_text_sweep (db : CacheTextDB) (current_timestamp : String) :
    (∀ entry, entry ∈ (clearExpiredCache db current_timestamp).1 ↔
      (entry ∈ db ∧
        sqliteTextLt entry.2.expires_at.data current_timestamp.data = false)) ∧
    (clearExpiredCache db current_timestamp).2 = none ∧
    (∀ (entry : (String × String) × CacheRowText) (d x y : List Char),
      entry ∈ db →
      entry.2.expires_at.data = d ++ 'T' :: x →
      current_timestamp.data = d ++ ' ' :: y →
      entry ∈ (clearExpiredCache db current_timestamp).1) := by
  refine ⟨?_, rfl, ?_⟩
  · intro entry
    simp [clearExpiredCache, List.mem_filter]
  · intro entry d x y hmem hexp hts
    have hlt : sqliteTextLt entry.2.expires_at.data current_timestamp.data = false := by
      rw [hexp, hts, sqliteTextLt_append_common]
      rw [if_neg (by decide), if_pos (by decide)]
    simp [clearExpiredCache, List.mem_filter, hmem, hlt]

/-- Witness for C8: the same-day-expired row of the counterexample survives
the sweep, via the amended theorem at its concrete date split. -/
theorem clear_expired_cache_text_sweep_witness :
    (("IM1", "Daily Routines"),
      ({ question_data := [], created_at := "2026-10-11T05:00:00.123456"
         expires_at := "2026-10-12T05:00:00.123456" } : CacheRowText)) ∈
      (clearExpiredCache
        [(("IM1", "Daily Routines"),
          { question_data := [], created_at := "2026-10-11T05:00:00.123456"
            expires_at := "2026-10-12T05:00:00.123456" })]
        "2026-10-12 10:00:00").1 :=
  (clear_expired_cache_text_sweep
      [(("IM1", "Daily Routines"),
        { question_data := [], created_at := "2026-10-11T05:00:00.123456"
          expires_at := "2026-10-12T05:00:00.123456" })]
      "2026-10-12 10:00:00").2.2
    (("IM1", "Daily Routines"),
      { question_data := [], created_at := "2026-10-11T05:00:00.123456"
        expires_at := "2026-10-12T05:00:00.123456" })
    "2026-10-12".data "05:00:00.123456".data "10:00:00".data
    (List.mem_cons_self _ _) rfl rfl

/-! ## Request validation lemmas -/

theorem validateRequest_spec (req : GenerationRequest) (hv : validateRequest req = true) :
    isValidLevel req.level = true ∧ req.topic ∈ getLevelTopics req.level ∧
    1 ≤ req.count ∧ req.count ≤ 20 := by
  unfold validateRequest at hv
  split_ifs at hv with h1 h2 h3 h4
  refine ⟨?_, ?_, ?_, ?_⟩
  · simpa using h2
  · have hc : (getLevelTopics req.level).contains req.topic = true := by simpa using h3
    exact List.mem_of_elem_eq_true hc
  · simp only [Bool.or_eq_true, decide_eq_true_eq, not_or] at h4
    omega
  · simp only [Bool.or_eq_true, decide_eq_true_eq, not_or] at h4
    omega

theorem validateRequest_false_of (req : GenerationRequest)
    (h : isValidLevel req.level = false ∨ req.topic ∉ getLevelTopics req.level ∨
      req.count < 1 ∨ 20 < req.count) :
    validateRequest req = false := by
  cases hv : validateRequest req with
  | false => rfl
  | true =>
    obtain ⟨hl, ht, hc1, hc2⟩ := validateRequest_spec req hv
    rcases h with h | h | h | h
    · rw [hl] at h; cases h
    · exact absurd ht h
    · omega
    · omega

theorem getLevel_isSome_of_valid (code : String) (h : isValidLevel code = true) :
    ∃ info, getLevel code = some info := by
  unfold isValidLevel at h
  exact Option.isSome_iff_exists.mp h

/-! ## Claim C9 -/

/-- C9: prompt construction is deterministic — two calls of the prompt
builder agreeing on level, topic, count, the two flags and the grammar-focus
override, against the same level metadata, produce identical prompt strings.
The builder is pure string assembly (a total Lean function of its two
arguments), so no transport is consulted during construction. -/
theorem prompt_construction_deterministic (r1 r2 : GenerationRequest) (info : OpicLevel)
    (hl : r1.level = r2.level) (ht : r1.topic = r2.topic) (hc : r1.count = r2.count)
    (hd : r1.difficulty_progression = r2.difficulty_progression)
    (hcc : r1.cultural_context = r2.cultural_context)
    (hg : r1.grammar_focus = r2.grammar_focus) :
    createComprehensivePrompt r1 info = createComprehensivePrompt r2 info := by
  have h : r1 = r2 := by
    cases r1; cases r2; simp_all
  rw [h]

/-- Witness for C9 at a concrete request and the `IM1` catalog entry. -/
theorem prompt_construction_deterministic_witness :
    createComprehensivePrompt reqTwo ((getLevel "IM1").getD default)
      = createComprehensivePrompt reqTwo ((getLevel "IM1").getD default) :=
  prompt_construction_deterministic reqTwo reqTwo ((getLevel "IM1").getD default)
    rfl rfl rfl rfl rfl rfl

/-! ## Claim C7 -/

/-- C7: a request with an unknown level code, a topic outside that level's
topic list, or a count outside 1..20 is rejected without the transport being
consulted: the result does not depend on the transport outcome at all and is
the fixed validation-failure result. -/
theorem invalid_request_rejected_without_transport (req : GenerationRequest)
    (h : isValidLevel req.level = false ∨ req.topic ∉ getLevelTopics req.level ∨
      req.count < 1 ∨ 20 < req.count)
    (t1 t2 : ApiCallResult) (now : String) (gen_time : Nat) :
    generateQuestions req t1 now gen_time = generateQuestions req t2 now gen_time ∧
    (generateQuestions req t1 now gen_time).success = false ∧
    (generateQuestions req t1 now gen_time).questions = [] ∧
    (generateQuestions req t1 now gen_time).error_message = some "Invalid request parameters" := by
  have hv : validateRequest req = false := validateRequest_false_of req h
  unfold generateQuestions
  rw [hv]
  exact ⟨rfl, rfl, rfl, rfl⟩

/-- Witness for C7: a count of zero is rejected identically under a
successful and a failed transport outcome. -/
theorem invalid_request_rejected_without_transport_witness :
    (generateQuestions { level := "IM1", topic := "Daily Routines", count := 0 }
        { success := true, content := "[]" } "T" 1
      = generateQuestions { level := "IM1", topic := "Daily Routines", count := 0 }
        { success := false, error := "boom" } "T" 1) ∧
    (generateQuestions { level := "IM1", topic := "Daily Routines", count := 0 }
        { success := true, content := "[]" } "T" 1).success = false ∧
    (generateQuestions { level := "IM1", topic := "Daily Routines", count := 0 }
        { success := true, content := "[]" } "T" 1).questions = [] ∧
    (generateQuestions { level := "IM1", topic := "Daily Routines", count := 0 }
        { success := true, content := "[]" } "T" 1).error_message
      = some "Invalid request parameters" :=
  invalid_request_rejected_without_transport
    { level := "IM1", topic := "Daily Routines", count := 0 }
    (Or.inr (Or.inr (Or.inl (by decide))))
    { success := true, content := "[]" } { success := false, error := "boom" } "T" 1

/-! ## Claim C6 -/

/-- C6: when the transport succeeded but zero elements of the decoded array
survive per-item validation, `generate_questions` reports the whole call as
a failure result — `success = False`, an empty question list, and the
"no valid questions" error message — instead of raising to the caller. -/
theorem zero_valid_questions_reports_failure (req : GenerationRequest)
    (api : ApiCallResult) (now : String) (gen_time : Nat)
    (items : List JValue) (arr : List Char)
    (hvalid : validateRequest req = true)
    (hsuccess : api.success = true)
    (hextract : extractArrayContent (stripChars api.content.data) = some arr)
    (hload : jsonLoads (String.mk arr) = some (.jarr items))
    (hzero : validateLoop req now items [] = .ok []) :
    generateQuestions req api now gen_time
      = { success := false, questions := []
          error_message := some "Question validation failed: No valid questions found in response" } := by
  obtain ⟨info, hinfo⟩ :=
    getLevel_isSome_of_valid req.level (validateRequest_spec req hvalid).1
  have hparse : parseAndValidateQuestions req now api.content
      = .error "Question validation failed: No valid questions found in response" := by
    simp only [parseAndValidateQuestions, hextract, hload, processQuestionArray, hzero]
  unfold generateQuestions
  rw [hvalid, hinfo, hsuccess, hparse]
  rfl

/-- Witness for C6: a reply whose only element is an object missing every
required field validates to zero questions and the call reports failure. -/
theorem zero_valid_questions_reports_failure_witness :
    generateQuestions reqTwo { success := true, content := "[\x7b\"a\": 1\x7d]" } "T" 1
      = { success := false, questions := []
          error_message := some "Question validation failed: No valid questions found in response" } :=
  zero_valid_questions_reports_failure reqTwo
    { success := true, content := "[\x7b\"a\": 1\x7d]" } "T" 1
    [.jobj [("a", .jnum 1)]] "[\x7b\"a\": 1\x7d]".data
    rfl rfl rfl rfl rfl

/-! ## Validation-loop lemmas -/

theorem validateLoop_length_le (req : GenerationRequest) (now : String) :
    ∀ (items : List JValue) (acc res : List Question),
      (acc.length : Int) < req.count →
      validateLoop req now items acc = .ok res →
      (res.length : Int) ≤ req.count := by
  intro items
  induction items with
  | nil =>
    intro acc res hlt heq
    simp only [validateLoop] at heq
    cases heq
    omega
  | cons q rest ih =>
    intro acc res hlt heq
    cases hv : validateItem req now q with
    | error e =>
      simp only [validateLoop, hv] at heq
      exact Except.noConfusion heq
    | ok o =>
      cases o with
      | none =>
        simp only [validateLoop, hv] at heq
        exact ih acc res hlt heq
      | some vq =>
        simp only [validateLoop, hv] at heq
        by_cases hc : req.count ≤ ((acc ++ [vq]).length : Int)
        · rw [if_pos hc] at heq
          cases heq
          simp only [List.length_append, List.length_cons, List.length_nil]
          omega
        · rw [if_neg hc] at heq
          refine ih (acc ++ [vq]) res ?_ heq
          simp only [List.length_append, List.length_cons, List.length_nil]
          simp only [List.length_append, List.length_cons, List.length_nil] at hc
          omega

theorem validateLoop_break_stable (req : GenerationRequest) (now : String) :
    ∀ (items extra : List JValue) (acc res : List Question),
      (acc.length : Int) < req.count →
      validateLoop req now items acc = .ok res →
      (res.length : Int) = req.count →
      validateLoop req now (items ++ extra) acc = .ok res := by
  intro items
  induction items with
  | nil =>
    intro extra acc res hlt heq hlen
    simp only [validateLoop] at heq
    cases heq
    exact absurd hlen (by omega)
  | cons q rest ih =>
    intro extra acc res hlt heq hlen
    cases hv : validateItem req now q with
    | error e =>
      simp only [validateLoop, hv] at heq
      exact Except.noConfusion heq
    | ok o =>
      cases o with
      | none =>
        simp only [validateLoop, hv] at heq
        have := ih extra acc res hlt heq hlen
        simpa only [List.cons_append, validateLoop, hv] using this
      | some vq =>
        simp only [validateLoop, hv] at heq
        by_cases hc : req.count ≤ ((acc ++ [vq]).length : Int)
        · rw [if_pos hc] at heq
          cases heq
          simp only [List.cons_append, validateLoop, hv, if_pos hc]
        · rw [if_neg hc] at heq
          have hlt2 : (((acc ++ [vq]).length : Nat) : Int) < req.count := by
            simp only [List.length_append, List.length_cons, List.length_nil] at hc ⊢
            omega
          have := ih extra (acc ++ [vq]) res hlt2 heq hlen
          simp only [List.cons_append, validateLoop, hv, if_neg hc]
          exact this

/-! ## Claim C5 -/

/-- C5: with the requested count (always at least 1 by the input contract),
the validation loop stops accumulating as soon as `count` valid items have
been collected — appending further array elements after that point leaves
the result unchanged — and consequently every list the parser returns has
length at most `count`. -/
theorem parser_stops_at_requested_count (req : GenerationRequest) (now : String)
    (h : 1 ≤ req.count) :
    (∀ (content : String) (res : List Question),
        parseAndValidateQuestions req now content = .ok res →
        (res.length : Int) ≤ req.count) ∧
    (∀ (items extra : List JValue) (res : List Question),
        validateLoop req now items [] = .ok res → (res.length : Int) = req.count →
        validateLoop req now (items ++ extra) [] = .ok res) := by
  constructor
  · intro content res hres
    simp only [parseAndValidateQuestions] at hres
    cases hext : extractArrayContent (stripChars content.data) with
    | none =>
      simp only [hext] at hres
      exact Except.noConfusion hres
    | some arrChars =>
      simp only [hext] at hres
      cases hload : jsonLoads (String.mk arrChars) with
      | none =>
        simp only [hload] at hres
        exact Except.noConfusion hres
      | some j =>
        cases j with
        | jarr items =>
          simp only [hload, processQuestionArray] at hres
          cases hloop : validateLoop req now items [] with
          | error e =>
            simp only [hloop] at hres
            exact Except.noConfusion hres
          | ok qs =>
            cases qs with
            | nil =>
              simp only [hloop] at hres
              exact Except.noConfusion hres
            | cons q qs2 =>
              simp only [hloop] at hres
              cases hres
              refine validateLoop_length_le req now items [] (q :: qs2) ?_ hloop
              simp only [List.length_nil, Nat.cast_zero]
              omega
        | jnull =>
          simp only [hload] at hres
          exact Except.noConfusion hres
        | jbool b =>
          simp only [hload] at hres
          exact Except.noConfusion hres
        | jnum n =>
          simp only [hload] at hres
          exact Except.noConfusion hres
        | jstr s =>
          simp only [hload] at hres
          exact Except.noConfusion hres
        | jobj fs =>
          simp only [hload] at hres
          exact Except.noConfusion hres
  · intro items extra res h1 h2
    refine validateLoop_break_stable req now items extra [] res ?_ h1 h2
    simp only [List.length_nil, Nat.cast_zero]
    omega

/-- Witness for C5: with a requested count of 1, a prose reply embedding two
valid items yields exactly one validated record, and running the loop on a
one-item array already at the count is unchanged by appending a second valid
item. -/
theorem parser_stops_at_requested_count_witness :
    (([validItemCleaned].length : Int) ≤ reqOne.count) ∧
    validateLoop reqOne "T" ([validItemJson] ++ [validItemJson]) [] = .ok [validItemCleaned] :=
  ⟨(parser_stops_at_requested_count reqOne "T" (by decide)).1 twoItemReply [validItemCleaned]
      (by set_option maxRecDepth 16000 in exact rfl),
   (parser_stops_at_requested_count reqOne "T" (by decide)).2 [validItemJson] [validItemJson]
      [validItemCleaned] (by set_option maxRecDepth 16000 in exact rfl) rfl⟩

/-! ## Array-extraction lemmas -/

theorem firstIdxOf_append (c : Char) (pre rest : List Char) (h : c ∉ pre) :
    firstIdxOf c (pre ++ c :: rest) = some pre.length := by
  induction pre with
  | nil => simp [firstIdxOf]
  | cons a t ih =>
    have ha : (a == c) = false := by
      refine beq_false_of_ne (fun hc => h ?_)
      exact List.mem_cons.mpr (Or.inl hc.symm)
    have ht : c ∉ t := fun hc => h (List.mem_cons_of_mem a hc)
    simp [firstIdxOf, ha, ih ht]

theorem extractArrayContent_of_shape (pre mid post : List Char)
    (hpre_ne : pre ≠ []) (hpre : '[' ∉ pre) (hpost : ']' ∉ post) :
    extractArrayContent (pre ++ '[' :: (mid ++ ']' :: post)) = some ('[' :: (mid ++ [']'])) := by
  obtain ⟨a, t, rfl⟩ : ∃ a t, pre = a :: t := by
    cases pre with
    | nil => exact absurd rfl hpre_ne
    | cons a t => exact ⟨a, t, rfl⟩
  have ha : a ≠ '[' := fun hc => hpre (List.mem_cons.mpr (Or.inl hc.symm))
  have hsplit : (a :: t) ++ '[' :: (mid ++ ']' :: post)
      = ((a :: t) ++ '[' :: mid) ++ ']' :: post := by simp
  have hfind : firstIdxOf '[' ((a :: t) ++ '[' :: (mid ++ ']' :: post)) = some (a :: t).length :=
    firstIdxOf_append '[' (a :: t) _ hpre
  have hpost' : ']' ∉ post.reverse := by simpa using hpost
  have hsrev : ((a :: t) ++ '[' :: (mid ++ ']' :: post)).reverse
      = post.reverse ++ ']' :: ((a :: t) ++ '[' :: mid).reverse := by
    rw [hsplit, List.reverse_append, List.reverse_cons]
    simp
  have hrevfind : firstIdxOf ']' ((a :: t) ++ '[' :: (mid ++ ']' :: post)).reverse
      = some post.reverse.length := by
    rw [hsrev]
    exact firstIdxOf_append ']' post.reverse _ hpost'
  have hstart : pyFind '[' ((a :: t) ++ '[' :: (mid ++ ']' :: post)) = ((a :: t).length : Int) := by
    unfold pyFind
    rw [hfind]
  have hlen : ((a :: t) ++ '[' :: (mid ++ ']' :: post)).length
      = (a :: t).length + mid.length + post.length + 2 := by
    simp [List.length_append]
    omega
  have hrfind : pyRFind ']' ((a :: t) ++ '[' :: (mid ++ ']' :: post))
      = ((a :: t).length : Int) + mid.length + 1 := by
    unfold pyRFind
    rw [hrevfind, hlen]
    simp [List.length_reverse]
    omega
  have hcond : (((a :: t) ++ '[' :: (mid ++ ']' :: post)).head? == some '[') = false := by
    simp [ha]
  have hslice : pySlice ((a :: t) ++ '[' :: (mid ++ ']' :: post))
      ((a :: t).length : Int) ((((a :: t).length : Int) + mid.length + 1) + 1)
      = '[' :: (mid ++ [']']) := by
    unfold pySlice
    have h1 : (((a :: t).length : Int) + mid.length + 1 + 1).toNat
        = (a :: t).length + (mid.length + 2) := by omega
    have h2 : (((a :: t).length : Int)).toNat = (a :: t).length := by omega
    rw [h1, h2]
    have hshape : (a :: t) ++ '[' :: (mid ++ ']' :: post)
        = ((a :: t) ++ ('[' :: (mid ++ [']']))) ++ post := by simp
    rw [hshape]
    rw [List.take_left' (by simp [List.length_append]; omega)]
    rw [List.drop_left]
  unfold extractArrayContent
  rw [hcond]
  simp only [Bool.false_eq_true, if_false]
  rw [hstart, hrfind]
  rw [if_pos (by constructor)]
  rw [hslice]

theorem pyAllContains_jobj (fs : List String) (fields : List (String × JValue)) :
    pyAllContains fs (.jobj fields) = some (fs.all (fun f => fields.any (fun p => p.1 == f))) := by
  induction fs with
  | nil => rfl
  | cons f rest ih =>
    simp only [pyAllContains, pyContains]
    cases hf : fields.any (fun p => p.1 == f) with
    | false => simp [List.all_cons, hf]
    | true => simp [List.all_cons, hf, ih]

/-! ## Claim C4 -/

/-- C4, counterexample to the claim as stated: in the reply
`"Here: [5, {valid item}] done"` the number `5` is an array element missing
all four required fields, yet it is not skipped — Python's `field in 5`
raises `TypeError`, the blanket handler converts it into a validation
failure, and the valid element after it is never processed. -/
theorem parse_skip_counterexample :
    parseAndValidateQuestions reqTwo "T"
      ("Here: [5, \x7b\"sentence\": \"I _____ breakfast.\", \"correctAnswer\": \"have\", \"explanation\": \"e\", \"wrongAnswers\": [\"a\", \"b\", \"c\", \"d\", \"x\"]\x7d] done")
      = .error "Question validation failed: TypeError" := by
  set_option maxRecDepth 16000 in exact rfl

/-- C4 as amended: for a reply that (after stripping) does not start with
`[` but has a `[` before its last `]`, the parser slices from the first `[`
to the last `]`, parses the slice as a JSON array and processes exactly its
elements, ignoring the surrounding prose.  A JSON-object element missing a
required field, having a string sentence without the `_____` marker, or
carrying fewer than four wrong answers is skipped and processing continues;
a surviving object element keeps only its first four wrong answers with all
fields stripped of surrounding whitespace.  However an element on which
Python's `in` raises — such as a bare number — aborts the whole call as a
validation failure instead of being skipped. -/
theorem parse_extraction_and_validation (req : GenerationRequest) (now : String) :
    (∀ (content : String) (pre mid post : List Char) (items : List JValue),
        stripChars content.data = pre ++ '[' :: (mid ++ ']' :: post) →
        pre ≠ [] → '[' ∉ pre → ']' ∉ post →
        jsonLoads (String.mk ('[' :: (mid ++ [']']))) = some (.jarr items) →
        parseAndValidateQuestions req now content = processQuestionArray req now items) ∧
    (∀ (fields : List (String × JValue)) (rest : List JValue) (acc : List Question),
        (required_fields.all (fun f => fields.any (fun p => p.1 == f))) = false →
        validateLoop req now (.jobj fields :: rest) acc = validateLoop req now rest acc) ∧
    (∀ (fields : List (String × JValue)) (rest : List JValue) (acc : List Question) (s : String),
        (required_fields.all (fun f => fields.any (fun p => p.1 == f))) = true →
        pyDictGet "sentence" fields = some (.jstr s) →
        charsContainsSub "_____".data s.data = false →
        validateLoop req now (.jobj fields :: rest) acc = validateLoop req now rest acc) ∧
    (∀ (fields : List (String × JValue)) (rest : List JValue) (acc : List Question)
        (s : String) (ws : List JValue),
        (required_fields.all (fun f => fields.any (fun p => p.1 == f))) = true →
        pyDictGet "sentence" fields = some (.jstr s) →
        charsContainsSub "_____".data s.data = true →
        pyDictGet "wrongAnswers" fields = some (.jarr ws) →
        ws.length < 4 →
        validateLoop req now (.jobj fields :: rest) acc = validateLoop req now rest acc) ∧
    (∀ (fields : List (String × JValue)) (rest : List JValue) (acc : List Question)
        (s ca ex : String) (ws : List JValue) (was : List String),
        (required_fields.all (fun f => fields.any (fun p => p.1 == f))) = true →
        pyDictGet "sentence" fields = some (.jstr s) →
        charsContainsSub "_____".data s.data = true →
        pyDictGet "wrongAnswers" fields = some (.jarr ws) →
        4 ≤ ws.length →
        pyDictGet "correctAnswer" fields = some (.jstr ca) →
        pyDictGet "explanation" fields = some (.jstr ex) →
        pyStripList (ws.take 4) = some was →
        validateLoop req now (.jobj fields :: rest) acc =
          (let acc2 := acc ++ [{ sentence := pyStrip s, correctAnswer := pyStrip ca
                                 explanation := pyStrip ex, wrongAnswers := was
                                 level := req.level, topic := req.topic, generated_at := now }]
           if req.count ≤ (acc2.length : Int) then .ok acc2
           else validateLoop req now rest acc2)) ∧
    (∀ (n : Int) (rest : List JValue) (acc : List Question),
        validateLoop req now (.jnum n :: rest) acc = .error "TypeError") := by
  refine ⟨?_, ?_, ?_, ?_, ?_, ?_⟩
  · intro content pre mid post items hstrip hne hpre hpost hload
    simp only [parseAndValidateQuestions, hstrip,
      extractArrayContent_of_shape pre mid post hne hpre hpost, hload]
  · intro fields rest acc h
    simp only [validateLoop, validateItem, pyAllContains_jobj, h]
  · intro fields rest acc s h1 h2 h3
    simp only [validateLoop, validateItem, pyAllContains_jobj, h1, pyGetItem, h2,
      pyContains, h3, Bool.not_false, if_pos]
  · intro fields rest acc s ws h1 h2 h3 h4 h5
    simp only [validateLoop, validateItem, pyAllContains_jobj, h1, pyGetItem, h2,
      pyContains, h3, Bool.not_true, Bool.false_eq_true, if_false, h4, if_pos h5]
  · intro fields rest acc s ca ex ws was h1 h2 h3 h4 h5 h6 h7 h8
    have h5' : ¬(ws.length < 4) := by omega
    simp only [validateLoop, validateItem, pyAllContains_jobj, h1, pyGetItem, h2,
      pyContains, h3, Bool.not_true, Bool.false_eq_true, if_false, h4, if_neg h5',
      buildCleanedQuestion, pyStripStr, h6, h7, h8]
  · intro n rest acc
    rfl

/-- Witness for C4: each conjunct of the amended statement instantiated at a
concrete input — the two-item prose reply for the extraction part, and
concrete array elements for each skip, survive and abort case. -/
theorem parse_extraction_and_validation_witness :
    (parseAndValidateQuestions reqTwo "T" twoItemReply
      = processQuestionArray reqTwo "T" [validItemJson, validItemJson]) ∧
    (validateLoop reqTwo "T" [.jobj [("a", .jnum 1)]] []
      = validateLoop reqTwo "T" [] []) ∧
    (validateLoop reqTwo "T" [.jobj [("sentence", .jstr "no blank"),
        ("correctAnswer", .jstr "x"), ("explanation", .jstr "e"),
        ("wrongAnswers", .jarr [.jstr "a", .jstr "b", .jstr "c", .jstr "d"])]] []
      = validateLoop reqTwo "T" [] []) ∧
    (validateLoop reqTwo "T" [.jobj [("sentence", .jstr "I _____ x"),
        ("correctAnswer", .jstr "x"), ("explanation", .jstr "e"),
        ("wrongAnswers", .jarr [.jstr "a", .jstr "b", .jstr "c"])]] []
      = validateLoop reqTwo "T" [] []) ∧
    (validateLoop reqTwo "T" [validItemJson] [] =
      (let acc2 := [{ sentence := pyStrip "I _____ breakfast.", correctAnswer := pyStrip "have"
                      explanation := pyStrip "e", wrongAnswers := ["a", "b", "c", "d"]
                      level := reqTwo.level, topic := reqTwo.topic, generated_at := "T" }]
       if reqTwo.count ≤ (acc2.length : Int) then .ok acc2
       else validateLoop reqTwo "T" [] acc2)) ∧
    (validateLoop reqTwo "T" [.jnum 5] [] = .error "TypeError") := by
  have thm := parse_extraction_and_validation reqTwo "T"
  refine ⟨?_, ?_, ?_, ?_, ?_, ?_⟩
  · refine thm.1 twoItemReply "Here: ".data twoItemBody.data " end".data
      [validItemJson, validItemJson] ?_ (by decide) (by decide) (by decide) ?_
    · set_option maxRecDepth 16000 in exact rfl
    · set_option maxRecDepth 16000 in exact rfl
  · exact thm.2.1 [("a", .jnum 1)] [] [] (by decide)
  · exact thm.2.2.1 [("sentence", .jstr "no blank"), ("correctAnswer", .jstr "x"),
      ("explanation", .jstr "e"),
      ("wrongAnswers", .jarr [.jstr "a", .jstr "b", .jstr "c", .jstr "d"])] [] []
      "no blank" (by decide) rfl (by decide)
  · exact thm.2.2.2.1 [("sentence", .jstr "I _____ x"), ("correctAnswer", .jstr "x"),
      ("explanation", .jstr "e"),
      ("wrongAnswers", .jarr [.jstr "a", .jstr "b", .jstr "c"])] [] []
      "I _____ x" [.jstr "a", .jstr "b", .jstr "c"] (by decide) rfl (by decide) rfl (by decide)
  · exact thm.2.2.2.2.1 [("sentence", .jstr "I _____ breakfast."),
      ("correctAnswer", .jstr "have"), ("explanation", .jstr "e"),
      ("wrongAnswers", .jarr [.jstr "a", .jstr "b", .jstr "c", .jstr "d", .jstr "x"])] [] []
      "I _____ breakfast." "have" "e" [.jstr "a", .jstr "b", .jstr "c", .jstr "d", .jstr "x"]
      ["a", "b", "c", "d"] (by decide) rfl (by decide) rfl (by decide) rfl rfl (by decide)
  · exact thm.2.2.2.2.2 5 [] []

/-- C2 as amended: for every prior settings table, `set_setting` of the
boolean `True` stores Python's `str(True) = "True"`, `get_setting`'s JSON
decode of `"True"` fails (JSON spells its booleans lowercase), and the
raw-string fallback makes the round-trip return the string `"True"`
(symmetrically `"False"` for `False`), not the boolean. -/
theorem settings_roundtrip_bool_returns_string (db : SettingsDB) (b : Bool) :
    getSetting (setSetting db "sound_enabled" (.vbool b)) "sound_enabled" .vnone
      = .vstr (if b then "True" else "False") := by
  cases b <;>
    simp [getSetting, setSetting, List.lookup, pyStr] <;> rfl

end OpicApp
